import Mathlib

/-!
Verification development for the dialog-integrations pipeline
(src/integrations/shared.py and src/cli.py).

The generic integration engine is embedded shallowly:
* the flat `RegulationMeasure` record (a TypedDict in the source) becomes a
  Lean structure with `Option` fields for nullable columns;
* the wire DTOs (`SavePeriodDTO`, `SaveLocationDTO`, `SaveVehicleSetDTO`,
  `SaveMeasureDTO`, `PostApiRegulationsAddBody`) become structures whose
  `Option` fields model present/absent JSON keys;
* fallible construction (Python enum conversion raising, `int(None)` raising)
  becomes `Option`/`Except` results;
* the submit and publish loops become structural recursions that also return
  the trace of attempted items, so that "processing continues after a
  failure" is expressible;
* floating point payloads (vehicle dimension fields) are never computed
  with — only carried — so they are modelled by an opaque integer carrier.
-/

set_option autoImplicit false

namespace Dialog

/-- Opaque carrier for floating-point payload values: the pipeline only moves
these values between records and DTOs, never computing with them. -/
abbrev FloatVal := Int

/-- Modelled from the spec: the measure-type enumeration of the generated API
client (not under src/). The concrete member set is external; the pipeline
only needs a fixed set of valid wire strings containing the
speed-limitation member. -/
def measureTypeValues : List String :=
  ["noEntry", "speedLimitation", "parkingProhibited"]

/-- Modelled from the spec: the wire value of the speed-limitation member of
the measure-type enumeration. -/
def speedLimitationValue : String := "speedLimitation"

/-- Modelled from the spec: valid wire values of the road-type enumeration of
the generated API client (not under src/). -/
def roadTypeValues : List String :=
  ["lane", "departmentalRoad", "nationalRoad", "rawGeoJSON"]

/-- Modelled from the spec: valid wire values of the regulation category
enumeration of the generated API client (not under src/). -/
def categoryValues : List String :=
  ["permanentRegulation", "temporaryRegulation", "other"]

/-- Modelled from the spec: valid wire values of the regulation status
enumeration of the generated API client (not under src/). -/
def statusValues : List String := ["draft", "published"]

/-- Modelled from the spec: valid wire values of the regulation subject
enumeration of the generated API client (not under src/). -/
def subjectValues : List String := ["roadMaintenance", "incident", "event", "other"]

/-- The flat regulation-measure record (TypedDict `RegulationMeasure` of
src/integrations/shared.py): one row per (regulation, measure) pair, four
field families distinguished by name. Nullable columns are `Option`. -/
structure RegulationMeasure where
  period_start_date : Option String
  period_end_date : Option String
  period_start_time : Option String
  period_end_time : Option String
  period_recurrence_type : Option String
  period_is_permanent : Option Bool
  location_road_type : String
  location_label : String
  location_geometry : String
  regulation_identifier : String
  regulation_status : String
  regulation_category : String
  regulation_subject : String
  regulation_title : String
  regulation_other_category_text : String
  measure_type_ : String
  measure_max_speed : Option Int
  vehicle_all_vehicles : Bool
  vehicle_heavyweight_max_weight : Option FloatVal
  vehicle_max_height : Option FloatVal
  vehicle_max_width : Option FloatVal
  vehicle_exempted_types : Option (List String)
  vehicle_restricted_types : Option (List String)
  vehicle_other_exempted_type_text : Option String
deriving DecidableEq, Repr

/-- `SavePeriodDTO` of the wire model: all fields optional. -/
structure SavePeriodDTO where
  start_date : Option String
  end_date : Option String
  start_time : Option String
  end_time : Option String
  recurrence_type : Option String
  is_permanent : Option Bool
deriving DecidableEq, Repr

/-- `SaveRawGeoJSONDTO` of the wire model. -/
structure SaveRawGeoJSONDTO where
  label : String
  geometry : String
deriving DecidableEq, Repr

/-- `SaveLocationDTO` of the wire model: a validated road-type wire string and
the raw-geometry carrier object. -/
structure SaveLocationDTO where
  road_type : String
  raw_geo_json : SaveRawGeoJSONDTO
deriving DecidableEq, Repr

/-- `SaveVehicleSetDTO` of the wire model: every field optional; `none` models
a key absent from the serialized object. -/
structure SaveVehicleSetDTO where
  all_vehicles : Option Bool := none
  heavyweight_max_weight : Option FloatVal := none
  max_height : Option FloatVal := none
  max_width : Option FloatVal := none
  exempted_types : Option (List String) := none
  restricted_types : Option (List String) := none
  other_exempted_type_text : Option String := none
deriving DecidableEq, Repr

/-- Number of keys present in a `SaveVehicleSetDTO` (the `len(cleaned)` of
`create_save_vehicle_dto`). -/
def SaveVehicleSetDTO.presentCount (d : SaveVehicleSetDTO) : Nat :=
  (if d.all_vehicles.isSome then 1 else 0) +
  (if d.heavyweight_max_weight.isSome then 1 else 0) +
  (if d.max_height.isSome then 1 else 0) +
  (if d.max_width.isSome then 1 else 0) +
  (if d.exempted_types.isSome then 1 else 0) +
  (if d.restricted_types.isSome then 1 else 0) +
  (if d.other_exempted_type_text.isSome then 1 else 0)

/-- `SaveMeasureDTO` of the wire model. -/
structure SaveMeasureDTO where
  type_ : String
  max_speed : Option Int := none
  periods : List SavePeriodDTO
  locations : List SaveLocationDTO
  vehicle_set : SaveVehicleSetDTO
deriving DecidableEq, Repr

/-- `PostApiRegulationsAddBody` of the wire model: the regulation submitted
to the registry. Enum-typed fields carry their validated wire strings. -/
structure PostApiRegulationsAddBody where
  identifier : String
  category : String
  status : String
  subject : String
  title : String
  other_category_text : String
  measures : List SaveMeasureDTO
deriving DecidableEq, Repr

/-- `DialogIntegration.create_save_period_dto`: every period-family field of
the flat record becomes the corresponding DTO field (the source strips the
name family marker at runtime; here it is the named field mapping). -/
def create_save_period_dto (m : RegulationMeasure) : SavePeriodDTO :=
  { start_date := m.period_start_date
    end_date := m.period_end_date
    start_time := m.period_start_time
    end_time := m.period_end_time
    recurrence_type := m.period_recurrence_type
    is_permanent := m.period_is_permanent }

/-- `DialogIntegration.create_save_location_dto`: converts the stored
road-type string through the road-type enumeration (raising — `none` — on an
unknown value) and nests label and geometry in the raw-geometry carrier. -/
def create_save_location_dto (m : RegulationMeasure) : Option SaveLocationDTO :=
  if roadTypeValues.contains m.location_road_type then
    some { road_type := m.location_road_type
           raw_geo_json := { label := m.location_label, geometry := m.location_geometry } }
  else
    none

/-- Drops a list payload that is the empty list (part of the
`v not in (None, [], ...)` cleaning of `create_save_vehicle_dto`). -/
def dropEmptyList (v : Option (List String)) : Option (List String) :=
  match v with
  | some [] => none
  | v => v

/-- `DialogIntegration.create_save_vehicle_dto`: collects the vehicle-family
fields, removes empty payloads (`None` and empty lists), and, when
`all_vehicles` is true and is the only key present, returns the minimal
single-field form. -/
def create_save_vehicle_dto (m : RegulationMeasure) : SaveVehicleSetDTO :=
  let cleaned : SaveVehicleSetDTO :=
    { all_vehicles := some m.vehicle_all_vehicles
      heavyweight_max_weight := m.vehicle_heavyweight_max_weight
      max_height := m.vehicle_max_height
      max_width := m.vehicle_max_width
      exempted_types := dropEmptyList m.vehicle_exempted_types
      restricted_types := dropEmptyList m.vehicle_restricted_types
      other_exempted_type_text := m.vehicle_other_exempted_type_text }
  if cleaned.all_vehicles == some true && cleaned.presentCount == 1 then
    { all_vehicles := some true }
  else
    cleaned

/-- `DialogIntegration.create_measure`: builds one `SaveMeasureDTO` from one
flat record. Fails (`none`, an exception in the source) when the measure type
is not a member of the measure-type enumeration, when the road type is not a
member of the road-type enumeration, or when the speed-limitation type has no
max-speed value to convert. The max-speed key is added only for the
speed-limitation type. -/
def create_measure (m : RegulationMeasure) : Option SaveMeasureDTO :=
  if measureTypeValues.contains m.measure_type_ then
    match create_save_location_dto m with
    | none => none
    | some loc =>
      let base : SaveMeasureDTO :=
        { type_ := m.measure_type_
          periods := [create_save_period_dto m]
          locations := [loc]
          vehicle_set := create_save_vehicle_dto m }
      if m.measure_type_ == speedLimitationValue then
        match m.measure_max_speed with
        | some s => some { base with max_speed := some s }
        | none => none
      else
        some base
  else
    none

/-- Run-level error causes: a schema validation failure, a failed registry
identifier fetch, or an enum conversion raising outside any per-row guard. -/
inductive RunError where
  | schema (detail : String)
  | fetchIdsFailed
  | enumError
deriving DecidableEq, Repr

/-- The `clean_data.group_by("regulation_identifier")` step of
`create_regulations`: one group per distinct identifier, each group keeping
its rows in the original row order. (The engine guarantees no group order;
first-occurrence order is one admissible order.) -/
def groupByIdentifier (rows : List RegulationMeasure) :
    List (String × List RegulationMeasure) :=
  ((rows.map (fun r => r.regulation_identifier)).eraseDups).map
    (fun id => (id, rows.filter (fun r => r.regulation_identifier == id)))

/-- The per-group body of `create_regulations`: builds the measure list with
per-row error isolation (a failing row is skipped), drops the group when no
measure was built (`.ok none`), and otherwise takes every regulation-level
field from the first row of the group. The category, status and subject enum
conversions happen outside the per-row guard; an invalid value there raises
for the whole run (`.error`). -/
def buildRegulation : List RegulationMeasure →
    Except RunError (Option PostApiRegulationsAddBody)
  | [] => .ok none
  | first :: rest =>
    if ((first :: rest).filterMap create_measure).isEmpty then
      .ok none
    else if categoryValues.contains first.regulation_category &&
        statusValues.contains first.regulation_status &&
        subjectValues.contains first.regulation_subject then
      .ok (some
        { identifier := first.regulation_identifier
          category := first.regulation_category
          status := first.regulation_status
          subject := first.regulation_subject
          title := first.regulation_title
          other_category_text := first.regulation_other_category_text
          measures := (first :: rest).filterMap create_measure })
    else
      .error RunError.enumError

/-- Folds `buildRegulation` over the groups, keeping the regulations of the
groups that produced one and propagating a raising enum conversion. -/
def buildRegulations :
    List (List RegulationMeasure) → Except RunError (List PostApiRegulationsAddBody)
  | [] => .ok []
  | g :: gs =>
    match buildRegulation g with
    | .error e => .error e
    | .ok none => buildRegulations gs
    | .ok (some b) => (buildRegulations gs).map (fun rest => b :: rest)

/-- `DialogIntegration.create_regulations`: groups the clean rows by
regulation identifier and builds one regulation per group that yields at
least one measure. -/
def create_regulations (rows : List RegulationMeasure) :
    Except RunError (List PostApiRegulationsAddBody) :=
  buildRegulations ((groupByIdentifier rows).map Prod.snd)

/-- The suffixing loop of `integrate_regulations`: appends the fixed
run-scoped marker to a built regulation's identifier. -/
def suffixRegulation (r : PostApiRegulationsAddBody) : PostApiRegulationsAddBody :=
  { r with identifier := r.identifier ++ "-0" }

/-- The diff step of `integrate_regulations`: suffixes every built
identifier, removes the identifiers already known to the registry
(set difference on exact strings), and keeps the regulations whose suffixed
identifier survived. -/
def regulationsToIntegrate (regulations : List PostApiRegulationsAddBody)
    (integrated_regulation_ids : List String) : List PostApiRegulationsAddBody :=
  let withSuffix := regulations.map suffixRegulation
  let regulation_ids_to_integrate :=
    (withSuffix.map PostApiRegulationsAddBody.identifier).filter
      (fun i => !integrated_regulation_ids.contains i)
  withSuffix.filter (fun r => regulation_ids_to_integrate.contains r.identifier)

/-- The submit loop of `DialogIntegration._integrate_regulations`, made
observable: `submit` gives the HTTP status the registry answers for a body;
the result is the trace of attempted submissions (body and status) together
with the final error count. A status other than 201 increments the count and
the loop moves on to the next regulation. -/
def submitLoop (submit : PostApiRegulationsAddBody → Nat) :
    List PostApiRegulationsAddBody → List (PostApiRegulationsAddBody × Nat) × Nat
  | [] => ([], 0)
  | r :: rest =>
    let resp := submit r
    let next := submitLoop submit rest
    ((r, resp) :: next.1, (if resp == 201 then 0 else 1) + next.2)

/-- The run summary of `_integrate_regulations`: the (submitted, total)
count it reports after the loop. The function returns normally whatever the
per-submission outcomes were. -/
def integrateReport (submit : PostApiRegulationsAddBody → Nat)
    (regulations : List PostApiRegulationsAddBody) : Nat × Nat :=
  let count_error := (submitLoop submit regulations).2
  (regulations.length - count_error, regulations.length)

/-- The publish loop of `DialogIntegration.publish_regulations`, made
observable: `publishOk` tells whether the remote publish action succeeds for
an identifier; the result is the trace of attempted identifiers together
with the error count. Any failure is counted and the loop continues. -/
def publishLoop (publishOk : String → Bool) : List String → List String × Nat
  | [] => ([], 0)
  | id :: rest =>
    let next := publishLoop publishOk rest
    (id :: next.1, (if publishOk id then 0 else 1) + next.2)

/-- `DialogIntegration.publish_regulations`: fetches the known identifiers
(failure there aborts the run), attempts each one, and reports
(succeeded, failed, total). -/
def publish_regulations (fetchIds : Except Unit (List String))
    (publishOk : String → Bool) : Except RunError (Nat × Nat × Nat) :=
  match fetchIds with
  | .error _ => .error RunError.fetchIdsFailed
  | .ok regulation_ids =>
    let count_error := (publishLoop publishOk regulation_ids).2
    .ok (regulation_ids.length - count_error, count_error, regulation_ids.length)

/-- Semantic column types of the validated-record contract
(string, int, float, bool, timestamp). -/
inductive PolarsType where
  | utf8
  | int64
  | float64
  | boolean
  | datetime
deriving DecidableEq, Repr

/-- One cell of a raw tabular frame, untyped until validated. -/
inductive PolarsValue where
  | null
  | str (s : String)
  | int (n : Int)
  | float (x : FloatVal)
  | bool (b : Bool)
  | datetime (t : Int)
deriving DecidableEq, Repr

/-- Whether a cell is the null value. -/
def PolarsValue.isNull : PolarsValue → Bool
  | .null => true
  | _ => false

/-- One declared column of a schema contract: name, semantic type,
nullability. -/
structure ColumnSpec where
  name : String
  dtype : PolarsType
  nullable : Bool
deriving DecidableEq, Repr

/-- A tabular frame, column-oriented: association list from column name to
the column's cells. -/
structure Frame where
  columns : List (String × List PolarsValue)
deriving DecidableEq, Repr

/-- Names of the columns of a frame. -/
def Frame.columnNames (f : Frame) : List String := f.columns.map Prod.fst

/-- Looks a column up by name. -/
def Frame.getColumn (f : Frame) (name : String) : Option (List PolarsValue) :=
  (f.columns.find? (fun c => c.1 == name)).map Prod.snd

/-- Cast of one cell to a declared type under the coercing validation the
integration schemas enable: null passes through, a value already of the
declared type passes through, an integer widens to float or renders to
string; every other combination fails. -/
def coerceValue (t : PolarsType) : PolarsValue → Option PolarsValue
  | .null => some .null
  | .str s =>
    match t with
    | .utf8 => some (.str s)
    | _ => none
  | .int n =>
    match t with
    | .int64 => some (.int n)
    | .float64 => some (.float n)
    | .utf8 => some (.str (toString n))
    | _ => none
  | .float x =>
    match t with
    | .float64 => some (.float x)
    | _ => none
  | .bool b =>
    match t with
    | .boolean => some (.bool b)
    | _ => none
  | .datetime d =>
    match t with
    | .datetime => some (.datetime d)
    | _ => none

/-- Validates one declared column: coerces each cell to the declared type
(failure is fatal) and rejects nulls in a non-nullable column. -/
def validateColumn (spec : ColumnSpec) (vals : List PolarsValue) :
    Except String (List PolarsValue) :=
  match vals.mapM (coerceValue spec.dtype) with
  | none => .error ("cannot coerce column " ++ spec.name)
  | some coerced =>
    if !spec.nullable && coerced.any PolarsValue.isNull then
      .error ("null in non-nullable column " ++ spec.name)
    else
      .ok coerced

/-- The column selection step of `validate_raw_data`: keeps only the declared
columns, in declaration order; a declared column absent from the raw frame is
fatal. Undeclared columns are dropped here. -/
def selectColumns (raw : Frame) : List ColumnSpec →
    Except String (List (String × List PolarsValue))
  | [] => .ok []
  | spec :: rest =>
    match raw.getColumn spec.name with
    | none => .error ("missing required column " ++ spec.name)
    | some vals =>
      match selectColumns raw rest with
      | .error e => .error e
      | .ok tail => .ok ((spec.name, vals) :: tail)

/-- The presence check the schema validation performs on the preprocessed
frame: every declared column must still exist. -/
def checkColumnsPresent (f : Frame) : List ColumnSpec → Except String Unit
  | [] => .ok ()
  | spec :: rest =>
    if f.columnNames.contains spec.name then checkColumnsPresent f rest
    else .error ("missing required column " ++ spec.name)

/-- The per-column validation pass over the preprocessed frame: a column
declared in the schema is coerced and checked, a column the schema does not
declare passes through unchanged (the schemas are non-strict). -/
def validateFrameColumns (schema : List ColumnSpec) :
    List (String × List PolarsValue) →
    Except String (List (String × List PolarsValue))
  | [] => .ok []
  | c :: rest =>
    let head : Except String (String × List PolarsValue) :=
      match schema.find? (fun (spec : ColumnSpec) => spec.name == c.1) with
      | some spec => (validateColumn spec c.2).map (fun v => (c.1, v))
      | none => Except.ok c
    match head with
    | .error e => .error e
    | .ok v =>
      match validateFrameColumns schema rest with
      | .error e => .error e
      | .ok tail => .ok (v :: tail)

/-- `DialogIntegration.validate_raw_data`: selects only the declared columns
(an absent declared column is fatal; undeclared columns are dropped), applies
the adapter-supplied minimal preprocessing (identity by default), then
validates every declared column of the result against the contract. The
validated frame keeps the preprocessed frame's columns, with each declared
column replaced by its coerced cells. -/
def validate_raw_data (schema : List ColumnSpec) (preprocess : Frame → Frame)
    (raw : Frame) : Except String Frame :=
  match selectColumns raw schema with
  | .error e => .error e
  | .ok selected =>
    let df := preprocess (Frame.mk selected)
    match checkColumnsPresent df schema with
    | .error e => .error e
    | .ok _ =>
      match validateFrameColumns schema df.columns with
      | .error e => .error e
      | .ok cols => .ok (Frame.mk cols)

/-- The contract a raw frame must satisfy for validation to succeed when the
preprocessing step is the identity: every declared column is present, every
cell of a declared column coerces to the declared type, and no non-nullable
declared column holds a null. -/
def schemaOK (schema : List ColumnSpec) (raw : Frame) : Bool :=
  schema.all (fun spec =>
    match raw.getColumn spec.name with
    | none => false
    | some vals =>
      (vals.mapM (coerceValue spec.dtype)).isSome &&
        (spec.nullable || !vals.any PolarsValue.isNull))

/-- `DialogIntegration.integrate_regulations`, the full template-method run,
parameterized by the external collaborators: the schema contract, the
adapter's preprocessing and clean-data transform, the registry identifier
fetch outcome, and the per-submission registry response. Returns the final
(submitted, total) report, or the error that aborted the run. -/
def integrate_regulations (schema : List ColumnSpec) (preprocess : Frame → Frame)
    (computeCleanData : Frame → List RegulationMeasure)
    (fetchIds : Except Unit (List String))
    (submit : PostApiRegulationsAddBody → Nat) (raw : Frame) :
    Except RunError (Nat × Nat) :=
  match validate_raw_data schema preprocess raw with
  | .error e => .error (RunError.schema e)
  | .ok validated =>
    let clean_rows := computeCleanData validated
    match create_regulations clean_rows with
    | .error e => .error e
    | .ok regulations =>
      match fetchIds with
      | .error _ => .error RunError.fetchIdsFailed
      | .ok integrated_regulation_ids =>
        .ok (integrateReport submit
          (regulationsToIntegrate regulations integrated_regulation_ids))

/-- The `integrate` command of src/cli.py: runs the integration and converts
any raised error into exit status 1; a run that returns normally exits 0. -/
def cli_integrate (schema : List ColumnSpec) (preprocess : Frame → Frame)
    (computeCleanData : Frame → List RegulationMeasure)
    (fetchIds : Except Unit (List String))
    (submit : PostApiRegulationsAddBody → Nat) (raw : Frame) : Nat :=
  match integrate_regulations schema preprocess computeCleanData fetchIds submit raw with
  | .ok _ => 0
  | .error _ => 1

/-! ### Concrete fixtures for scenario conjuncts and witnesses -/

/-- One valid flat record of regulation "A" (a no-entry measure). -/
def baseRow : RegulationMeasure :=
  { period_start_date := some "2024-01-01T00:00:00Z"
    period_end_date := none
    period_start_time := none
    period_end_time := none
    period_recurrence_type := some "everyDay"
    period_is_permanent := some true
    location_road_type := "lane"
    location_label := "Rue de Siam"
    location_geometry := "LINESTRING (0 0, 1 1)"
    regulation_identifier := "A"
    regulation_status := "published"
    regulation_category := "permanentRegulation"
    regulation_subject := "other"
    regulation_title := "Circulation"
    regulation_other_category_text := "Circulation"
    measure_type_ := "noEntry"
    measure_max_speed := none
    vehicle_all_vehicles := true
    vehicle_heavyweight_max_weight := none
    vehicle_max_height := none
    vehicle_max_width := none
    vehicle_exempted_types := none
    vehicle_restricted_types := none
    vehicle_other_exempted_type_text := none }

/-- A speed-limitation record. -/
def speedRow : RegulationMeasure :=
  { baseRow with measure_type_ := "speedLimitation", measure_max_speed := some 30 }

/-- A record with a max-height constraint besides the all-vehicles flag. -/
def heightRow : RegulationMeasure := { baseRow with vehicle_max_height := some 3 }

/-- A record whose only vehicle information is the all-vehicles flag, false. -/
def noVehicleRow : RegulationMeasure := { baseRow with vehicle_all_vehicles := false }

/-- Like `noVehicleRow` but with an explicitly empty exempted-types list. -/
def emptyListRow : RegulationMeasure :=
  { noVehicleRow with vehicle_exempted_types := some [] }

/-- A record of regulation "A" whose measure type is unknown, so that its
measure construction fails. -/
def badRowA : RegulationMeasure := { baseRow with measure_type_ := "unknownType" }

/-- A valid flat record of regulation "B". -/
def rowB : RegulationMeasure :=
  { baseRow with regulation_identifier := "B", regulation_title := "Autre" }

/-- The measure DTO `create_measure` builds from `baseRow`. -/
def baseMeasureDTO : SaveMeasureDTO :=
  { type_ := "noEntry"
    periods := [create_save_period_dto baseRow]
    locations := [{ road_type := "lane"
                    raw_geo_json := { label := "Rue de Siam"
                                      geometry := "LINESTRING (0 0, 1 1)" } }]
    vehicle_set := { all_vehicles := some true } }

/-- The measure DTO `create_measure` builds from `speedRow`. -/
def speedMeasureDTO : SaveMeasureDTO :=
  { baseMeasureDTO with type_ := "speedLimitation", max_speed := some 30 }

/-- The regulation built from the group of identifier "A". -/
def regA : PostApiRegulationsAddBody :=
  { identifier := "A"
    category := "permanentRegulation"
    status := "published"
    subject := "other"
    title := "Circulation"
    other_category_text := "Circulation"
    measures := [baseMeasureDTO] }

/-- The regulation built from the group of identifier "B". -/
def regB : PostApiRegulationsAddBody := { regA with identifier := "B", title := "Autre" }

/-- A submit outcome that answers 500 to regulation "A" and 201 otherwise. -/
def failOnA : PostApiRegulationsAddBody → Nat :=
  fun r => if r.identifier == "A" then 500 else 201

/-- A publish outcome that succeeds exactly for identifier "X". -/
def publishOnlyX : String → Bool := fun i => i == "X"

/-! ### Helper lemmas on the vehicle-set DTO -/

theorem vehicleSet_presentCount_one (d : SaveVehicleSetDTO)
    (hav : d.all_vehicles = some true) (h : d.presentCount = 1) :
    d = { all_vehicles := some true } := by
  obtain ⟨av, f1, f2, f3, f4, f5, f6⟩ := d
  cases f1 <;> cases f2 <;> cases f3 <;> cases f4 <;> cases f5 <;> cases f6 <;>
    simp_all [SaveVehicleSetDTO.presentCount]

theorem create_save_vehicle_dto_eq (m : RegulationMeasure) :
    create_save_vehicle_dto m =
      { all_vehicles := some m.vehicle_all_vehicles
        heavyweight_max_weight := m.vehicle_heavyweight_max_weight
        max_height := m.vehicle_max_height
        max_width := m.vehicle_max_width
        exempted_types := dropEmptyList m.vehicle_exempted_types
        restricted_types := dropEmptyList m.vehicle_restricted_types
        other_exempted_type_text := m.vehicle_other_exempted_type_text } := by
  simp only [create_save_vehicle_dto]
  split
  · next h =>
    simp only [Bool.and_eq_true, beq_iff_eq] at h
    exact (vehicleSet_presentCount_one _ h.1 h.2).symm
  · rfl

/-- C7: a flat record whose vehicle fields are all-vehicles true and nothing
else (no dimensions, no exemption or restriction lists, no other-exempted
text) yields the minimal vehicle-set DTO carrying only the all-vehicles
flag; a record with all-vehicles true plus a max-height value yields a DTO
retaining both fields. -/
theorem vehicle_dto_minimal_all_vehicles :
    (∀ m : RegulationMeasure,
      m.vehicle_all_vehicles = true →
      m.vehicle_heavyweight_max_weight = none →
      m.vehicle_max_height = none →
      m.vehicle_max_width = none →
      dropEmptyList m.vehicle_exempted_types = none →
      dropEmptyList m.vehicle_restricted_types = none →
      m.vehicle_other_exempted_type_text = none →
      create_save_vehicle_dto m = { all_vehicles := some true }) ∧
    (∀ (m : RegulationMeasure) (x : FloatVal),
      m.vehicle_all_vehicles = true →
      m.vehicle_max_height = some x →
      (create_save_vehicle_dto m).all_vehicles = some true ∧
      (create_save_vehicle_dto m).max_height = some x) := by
  constructor
  · intro m h1 h2 h3 h4 h5 h6 h7
    rw [create_save_vehicle_dto_eq, h1, h2, h3, h4, h5, h6, h7]
  · intro m x h1 h2
    rw [create_save_vehicle_dto_eq]
    simp [h1, h2]

/-- Witness for C7: evaluated at `baseRow` (only all-vehicles set) and at
`heightRow` (all-vehicles plus max-height 3). -/
theorem vehicle_dto_minimal_all_vehicles_witness :
    create_save_vehicle_dto baseRow = { all_vehicles := some true } ∧
    ((create_save_vehicle_dto heightRow).all_vehicles = some true ∧
      (create_save_vehicle_dto heightRow).max_height = some 3) :=
  ⟨vehicle_dto_minimal_all_vehicles.1 baseRow rfl rfl rfl rfl rfl rfl rfl,
    vehicle_dto_minimal_all_vehicles.2 heightRow 3 rfl rfl⟩

/-- C8: a measure DTO built by create_measure carries a max-speed value
exactly when the record's measure type is the speed-limitation type; for any
other type the field is absent whatever the record's max-speed column held. -/
theorem measure_max_speed_iff_speed_type :
    ∀ (m : RegulationMeasure) (dto : SaveMeasureDTO),
      create_measure m = some dto →
      (dto.max_speed.isSome = true ↔ m.measure_type_ = speedLimitationValue) := by
  intro m dto h
  unfold create_measure at h
  split at h
  · split at h
    · cases h
    · simp only [] at h
      split at h
      · next hsp =>
        split at h
        · injection h with h
          subst h
          simp only [beq_iff_eq] at hsp
          simp [hsp]
        · cases h
      · next hsp =>
        injection h with h
        subst h
        simp only [beq_iff_eq] at hsp
        simp [hsp]
  · cases h

/-- Witness for C8: evaluated at `speedRow`, whose built DTO is
`speedMeasureDTO`. -/
theorem measure_max_speed_iff_speed_type_witness :
    speedMeasureDTO.max_speed.isSome = true ↔
      speedRow.measure_type_ = speedLimitationValue :=
  measure_max_speed_iff_speed_type speedRow speedMeasureDTO (by rfl)

/-- C10: for every input record, create_save_vehicle_dto omits exactly the
vehicle-family fields whose value is absent or an empty list (the non-empty
values pass through unchanged, for every input, not only in the
all-vehicles simplification case); a record with all-vehicles false and
every other vehicle field empty yields a DTO carrying only the false flag,
also when an exemption list is present but empty. -/
theorem vehicle_dto_strips_none_and_empty :
    (∀ m : RegulationMeasure,
      create_save_vehicle_dto m =
        { all_vehicles := some m.vehicle_all_vehicles
          heavyweight_max_weight := m.vehicle_heavyweight_max_weight
          max_height := m.vehicle_max_height
          max_width := m.vehicle_max_width
          exempted_types := dropEmptyList m.vehicle_exempted_types
          restricted_types := dropEmptyList m.vehicle_restricted_types
          other_exempted_type_text := m.vehicle_other_exempted_type_text }) ∧
    create_save_vehicle_dto noVehicleRow = { all_vehicles := some false } ∧
    create_save_vehicle_dto emptyListRow = { all_vehicles := some false } :=
  ⟨create_save_vehicle_dto_eq, rfl, rfl⟩

/-! ### Helper lemmas on the submit, publish and diff steps -/

theorem publishLoop_trace (p : String → Bool) (ids : List String) :
    (publishLoop p ids).1 = ids := by
  induction ids with
  | nil => rfl
  | cons a l ih => simp [publishLoop, ih]

theorem publishLoop_count (p : String → Bool) (ids : List String) :
    (publishLoop p ids).2 = (ids.filter (fun i => !p i)).length := by
  induction ids with
  | nil => rfl
  | cons a l ih =>
    cases hp : p a <;> (simp [publishLoop, hp, ih, List.filter_cons]; try omega)

theorem submitLoop_trace (s : PostApiRegulationsAddBody → Nat)
    (regs : List PostApiRegulationsAddBody) :
    (submitLoop s regs).1.map Prod.fst = regs := by
  induction regs with
  | nil => rfl
  | cons r l ih => simp [submitLoop, ih]

theorem submitLoop_count (s : PostApiRegulationsAddBody → Nat)
    (regs : List PostApiRegulationsAddBody) :
    (submitLoop s regs).2 = (regs.filter (fun r => !(s r == 201))).length := by
  induction regs with
  | nil => rfl
  | cons r l ih =>
    cases hr : s r == 201 <;> (simp [submitLoop, hr, ih, List.filter_cons]; try omega)

theorem suffixRegulation_identifier (r : PostApiRegulationsAddBody) :
    (suffixRegulation r).identifier = r.identifier ++ "-0" := rfl

theorem regulationsToIntegrate_eq (regs : List PostApiRegulationsAddBody)
    (known : List String) :
    regulationsToIntegrate regs known =
      (regs.map suffixRegulation).filter (fun r => !known.contains r.identifier) := by
  unfold regulationsToIntegrate
  apply List.filter_congr
  intro r hr
  have hmem : r.identifier ∈
      (regs.map suffixRegulation).map PostApiRegulationsAddBody.identifier :=
    List.mem_map_of_mem _ hr
  cases hk : known.contains r.identifier
  · have hnk : r.identifier ∉ known := by simpa using hk
    simp only [List.map_map, List.mem_map, Function.comp] at hmem
    simp [List.elem_eq_mem, List.mem_filter, hnk]
    obtain ⟨a, ha, haa⟩ := hmem
    exact ⟨a, ha, haa⟩
  · have hkk : r.identifier ∈ known := by simpa using hk
    simp [List.elem_eq_mem, List.mem_filter, hkk]

/-- C1: the diff step of integrate_regulations submits exactly the built
regulations whose suffixed identifier (base identifier with the run-scoped
marker appended) is not among the fetched known identifiers; a regulation
whose suffixed identifier is already known is never submitted; with known
identifiers A-0 and built identifiers A-0 and B-0 only B-0 is submitted; and
when every built identifier is already known nothing is submitted. -/
theorem integrate_diff_submits_exactly_unknown :
    (∀ regs known, regulationsToIntegrate regs known =
      (regs.map suffixRegulation).filter (fun r => !known.contains r.identifier)) ∧
    (∀ regs known b, b ∈ regulationsToIntegrate regs known →
      known.contains b.identifier = false) ∧
    (regulationsToIntegrate [regA, regB] ["A-0"] = [suffixRegulation regB] ∧
      (suffixRegulation regB).identifier = "B-0") ∧
    (∀ regs known,
      (∀ r ∈ regs, known.contains (r.identifier ++ "-0") = true) →
      regulationsToIntegrate regs known = []) := by
  refine ⟨regulationsToIntegrate_eq, ?_, ⟨by rfl, rfl⟩, ?_⟩
  · intro regs known b hb
    rw [regulationsToIntegrate_eq] at hb
    have := (List.mem_filter.mp hb).2
    simpa using this
  · intro regs known hall
    rw [regulationsToIntegrate_eq]
    rw [List.filter_eq_nil_iff]
    intro r hr
    obtain ⟨a, ha, rfl⟩ := List.mem_map.mp hr
    simp only [suffixRegulation_identifier]
    simpa using hall a ha

/-- Witness for C1: with a single built regulation whose suffixed identifier
is already registered, nothing is submitted. -/
theorem integrate_diff_submits_exactly_unknown_witness :
    regulationsToIntegrate [regA] ["A-0"] = [] :=
  integrate_diff_submits_exactly_unknown.2.2.2 [regA] ["A-0"] (by decide)

/-- C2: the submit loop attempts every regulation of the list exactly once,
in order, whatever statuses the registry answers — a non-201 response is
counted as a failure and the loop moves on — and the run ends normally with
the (submitted, total) report; concretely, when the first of two regulations
fails, the second is still attempted and the report is (1, 2). -/
theorem submit_failure_continues_and_reports :
    (∀ (submit : PostApiRegulationsAddBody → Nat)
        (regs : List PostApiRegulationsAddBody),
      (submitLoop submit regs).1.map Prod.fst = regs ∧
      integrateReport submit regs =
        (regs.length - (regs.filter (fun r => !(submit r == 201))).length,
          regs.length)) ∧
    (submitLoop failOnA [regA, regB]).1.map Prod.fst = [regA, regB] ∧
    integrateReport failOnA [regA, regB] = (1, 2) := by
  refine ⟨fun submit regs => ⟨submitLoop_trace submit regs, ?_⟩, by rfl, by rfl⟩
  simp [integrateReport, submitLoop_count]

/-- C9: after a successful identifier fetch, the publish loop attempts every
fetched identifier exactly once, counts each failure and continues, and the
run ends normally with the (succeeded, failed, total) aggregate; concretely,
when publish succeeds for X and fails for Y, both are attempted and the
report is succeeded 1, failed 1, total 2. -/
theorem publish_attempts_all_and_aggregates :
    (∀ (publishOk : String → Bool) (ids : List String),
      (publishLoop publishOk ids).1 = ids ∧
      publish_regulations (.ok ids) publishOk =
        .ok (ids.length - (ids.filter (fun i => !publishOk i)).length,
          (ids.filter (fun i => !publishOk i)).length, ids.length)) ∧
    (publishLoop publishOnlyX ["X", "Y"]).1 = ["X", "Y"] ∧
    publish_regulations (.ok ["X", "Y"]) publishOnlyX = .ok (1, 1, 2) := by
  refine ⟨fun publishOk ids => ⟨publishLoop_trace publishOk ids, ?_⟩, by rfl, by rfl⟩
  simp [publish_regulations, publishLoop_count]

/-- Counterexample to C3: a concrete run in which the registry fetch
succeeds, the single submission gets status 500 and is counted as a failure
(the report says 0 submitted out of 1), yet the integrate entry point ends
with exit status 0 — so a run with a failed submission can end with exit
status zero, contradicting the claim. -/
theorem cli_exit_zero_despite_failed_submission :
    cli_integrate [] id (fun _ => [baseRow]) (.ok []) (fun _ => 500)
        (Frame.mk []) = 0 ∧
    integrate_regulations [] id (fun _ => [baseRow]) (.ok []) (fun _ => 500)
        (Frame.mk []) = .ok (0, 1) := ⟨rfl, rfl⟩

/-- C3 as amended: the integrate entry point exits 0 exactly when the run
raised no error (schema validation, regulation-level enum conversion, or the
registry identifier fetch); in particular a failed registry fetch always
exits 1, while per-submission failures alone leave the exit status 0 and are
visible only in the (submitted, total) report. -/
theorem cli_exit_nonzero_iff_run_error :
    (∀ schema preprocess computeCleanData fetchIds submit raw,
      cli_integrate schema preprocess computeCleanData fetchIds submit raw = 0 ↔
        (integrate_regulations schema preprocess computeCleanData fetchIds
          submit raw).isOk = true) ∧
    (∀ schema preprocess computeCleanData submit raw,
      cli_integrate schema preprocess computeCleanData (.error ()) submit raw
        = 1) := by
  constructor
  · intro schema preprocess computeCleanData fetchIds submit raw
    unfold cli_integrate
    cases integrate_regulations schema preprocess computeCleanData fetchIds
      submit raw <;> simp [Except.isOk, Except.toBool]
  · intro schema preprocess computeCleanData submit raw
    unfold cli_integrate integrate_regulations
    cases validate_raw_data schema preprocess raw with
    | error e => rfl
    | ok v =>
      dsimp only
      cases create_regulations (computeCleanData v) with
      | error e => rfl
      | ok regs => rfl

/-- Witness for C3 as amended: both parts applied at a concrete run — the
failed-submission run of the counterexample satisfies the iff, and a run
whose identifier fetch fails exits 1. -/
theorem cli_exit_nonzero_iff_run_error_witness :
    (cli_integrate [] id (fun _ => [baseRow]) (.ok []) (fun _ => 500)
        (Frame.mk []) = 0 ↔
      (integrate_regulations [] id (fun _ => [baseRow]) (.ok []) (fun _ => 500)
        (Frame.mk [])).isOk = true) ∧
    cli_integrate [] id (fun _ => [baseRow]) (.error ()) (fun _ => 500)
        (Frame.mk []) = 1 :=
  ⟨cli_exit_nonzero_iff_run_error.1 [] id (fun _ => [baseRow]) (.ok [])
      (fun _ => 500) (Frame.mk []),
    cli_exit_nonzero_iff_run_error.2 [] id (fun _ => [baseRow]) (fun _ => 500)
      (Frame.mk [])⟩

/-! ### Helper lemmas on regulation building -/

/-- Agreement of the regulation-family fields of two flat records. -/
def regulationFieldsAgree (x y : RegulationMeasure) : Prop :=
  x.regulation_identifier = y.regulation_identifier ∧
  x.regulation_status = y.regulation_status ∧
  x.regulation_category = y.regulation_category ∧
  x.regulation_subject = y.regulation_subject ∧
  x.regulation_title = y.regulation_title ∧
  x.regulation_other_category_text = y.regulation_other_category_text

/-- The regulation-level fields of a built body equal the regulation-family
fields of a flat record. -/
def bodyMatchesRow (b : PostApiRegulationsAddBody) (r : RegulationMeasure) : Prop :=
  b.identifier = r.regulation_identifier ∧
  b.status = r.regulation_status ∧
  b.category = r.regulation_category ∧
  b.subject = r.regulation_subject ∧
  b.title = r.regulation_title ∧
  b.other_category_text = r.regulation_other_category_text

theorem buildRegulation_ok_some {g : List RegulationMeasure}
    {b : PostApiRegulationsAddBody} (h : buildRegulation g = .ok (some b)) :
    b.measures = g.filterMap create_measure ∧ b.measures ≠ [] := by
  cases g with
  | nil => simp [buildRegulation] at h
  | cons first rest =>
    rw [buildRegulation] at h
    by_cases hemp : ((first :: rest).filterMap create_measure).isEmpty = true
    · rw [if_pos hemp] at h
      cases h
    · rw [if_neg hemp] at h
      by_cases henum : (categoryValues.contains first.regulation_category &&
          statusValues.contains first.regulation_status &&
          subjectValues.contains first.regulation_subject) = true
      · rw [if_pos henum] at h
        injection h with h
        injection h with h
        subst h
        exact ⟨rfl, by simpa [List.isEmpty_iff] using hemp⟩
      · rw [if_neg henum] at h
        cases h

theorem buildRegulation_fields {first : RegulationMeasure}
    {rest : List RegulationMeasure} {b : PostApiRegulationsAddBody}
    (h : buildRegulation (first :: rest) = .ok (some b)) :
    bodyMatchesRow b first := by
  rw [buildRegulation] at h
  by_cases hemp : ((first :: rest).filterMap create_measure).isEmpty = true
  · rw [if_pos hemp] at h
    cases h
  · rw [if_neg hemp] at h
    by_cases henum : (categoryValues.contains first.regulation_category &&
        statusValues.contains first.regulation_status &&
        subjectValues.contains first.regulation_subject) = true
    · rw [if_pos henum] at h
      injection h with h
      injection h with h
      subst h
      exact ⟨rfl, rfl, rfl, rfl, rfl, rfl⟩
    · rw [if_neg henum] at h
      cases h

theorem buildRegulations_mem {gs : List (List RegulationMeasure)}
    {bs : List PostApiRegulationsAddBody} {b : PostApiRegulationsAddBody}
    (h : buildRegulations gs = .ok bs) (hb : b ∈ bs) :
    ∃ g ∈ gs, buildRegulation g = .ok (some b) := by
  induction gs generalizing bs with
  | nil =>
    unfold buildRegulations at h
    injection h with h
    subst h
    cases hb
  | cons g gs ih =>
    unfold buildRegulations at h
    cases hbr : buildRegulation g with
    | error e => rw [hbr] at h; cases h
    | ok o =>
      rw [hbr] at h
      cases o with
      | none =>
        obtain ⟨g2, hg2, hg3⟩ := ih h hb
        exact ⟨g2, List.mem_cons_of_mem g hg2, hg3⟩
      | some b2 =>
        cases hrest : buildRegulations gs with
        | error e => rw [hrest] at h; cases h
        | ok tail =>
          rw [hrest] at h
          injection h with h
          subst h
          rcases List.mem_cons.mp hb with rfl | hb2
          · exact ⟨g, List.mem_cons_self g gs, hbr⟩
          · obtain ⟨g2, hg2, hg3⟩ := ih hrest hb2
            exact ⟨g2, List.mem_cons_of_mem g hg2, hg3⟩

/-- C5: a row whose measure construction fails is skipped and the remaining
rows of its group still contribute measures; a group yielding zero valid
measures produces no regulation at all — no built regulation ever carries an
empty measure list. Concretely: a group with one invalid and one valid row
yields one regulation carrying exactly the valid row's measure, and a group
of only invalid rows yields no regulation. -/
theorem measure_error_isolation :
    (∀ (rows : List RegulationMeasure) (regs : List PostApiRegulationsAddBody)
        (b : PostApiRegulationsAddBody),
      create_regulations rows = .ok regs → b ∈ regs → b.measures ≠ []) ∧
    create_regulations [badRowA, baseRow] = .ok [regA] ∧
    create_regulations [badRowA] = .ok [] := by
  refine ⟨?_, by rfl, by rfl⟩
  intro rows regs b h hb
  unfold create_regulations at h
  obtain ⟨g, hg, hgb⟩ := buildRegulations_mem h hb
  exact (buildRegulation_ok_some hgb).2

/-- Witness for C5: the regulation built from the mixed group has a
non-empty measure list. -/
theorem measure_error_isolation_witness : regA.measures ≠ [] :=
  measure_error_isolation.1 [badRowA, baseRow] [regA] regA (by rfl) (by simp)

/-- C6: every built regulation takes its identifier, status, category,
subject, title and other-category text from the first row of its group in
iteration order; and when all rows of a group agree on the regulation-family
fields, the built regulation's fields equal those shared values (stated
through any row of the group). -/
theorem regulation_fields_from_first_row :
    (∀ (first : RegulationMeasure) (rest : List RegulationMeasure)
        (b : PostApiRegulationsAddBody),
      buildRegulation (first :: rest) = .ok (some b) → bodyMatchesRow b first) ∧
    (∀ (rows : List RegulationMeasure) (regs : List PostApiRegulationsAddBody)
        (b : PostApiRegulationsAddBody),
      create_regulations rows = .ok regs → b ∈ regs →
      ∃ group first rest, group ∈ (groupByIdentifier rows).map Prod.snd ∧
        group = first :: rest ∧ bodyMatchesRow b first) ∧
    (∀ (first r : RegulationMeasure) (rest : List RegulationMeasure)
        (b : PostApiRegulationsAddBody),
      buildRegulation (first :: rest) = .ok (some b) → r ∈ first :: rest →
      regulationFieldsAgree r first → bodyMatchesRow b r) := by
  refine ⟨fun first rest b h => buildRegulation_fields h, ?_, ?_⟩
  · intro rows regs b h hb
    unfold create_regulations at h
    obtain ⟨g, hg, hgb⟩ := buildRegulations_mem h hb
    cases g with
    | nil => simp [buildRegulation] at hgb
    | cons first rest =>
      exact ⟨first :: rest, first, rest, hg, rfl, buildRegulation_fields hgb⟩
  · intro first r rest b h hr hagree
    obtain ⟨b1, b2, b3, b4, b5, b6⟩ := buildRegulation_fields h
    obtain ⟨a1, a2, a3, a4, a5, a6⟩ := hagree
    exact ⟨b1.trans a1.symm, b2.trans a2.symm, b3.trans a3.symm,
      b4.trans a4.symm, b5.trans a5.symm, b6.trans a6.symm⟩

/-- Witness for C6: the regulation built from the mixed group carries the
regulation-family fields of its first row. -/
theorem regulation_fields_from_first_row_witness : bodyMatchesRow regA badRowA :=
  regulation_fields_from_first_row.1 badRowA [baseRow] regA (by rfl)

/-! ### Helper lemmas on schema validation -/

theorem coerceValue_isNull {t : PolarsType} {v w : PolarsValue}
    (h : coerceValue t v = some w) : w.isNull = v.isNull := by
  cases v <;> cases t <;> simp only [coerceValue] at h <;>
    first
      | exact Option.noConfusion h
      | (injection h with h; subst h; rfl)

theorem mapM_coerce_any_null {t : PolarsType} {vals coerced : List PolarsValue}
    (h : vals.mapM (coerceValue t) = some coerced) :
    coerced.any PolarsValue.isNull = vals.any PolarsValue.isNull := by
  induction vals generalizing coerced with
  | nil =>
    simp only [List.mapM_nil, pure, Option.some.injEq] at h
    subst h
    rfl
  | cons v vs ih =>
    rw [List.mapM_cons] at h
    cases hv : coerceValue t v with
    | none => rw [hv] at h; cases h
    | some w =>
      rw [hv] at h
      cases hvs : vs.mapM (coerceValue t) with
      | none => rw [hvs] at h; cases h
      | some ws =>
        rw [hvs] at h
        simp only [Option.pure_def, Option.bind_eq_bind, Option.some_bind,
          Option.some.injEq] at h
        subst h
        simp [List.any_cons, coerceValue_isNull hv, ih hvs]

theorem validateColumn_isOk_iff (spec : ColumnSpec) (vals : List PolarsValue) :
    (validateColumn spec vals).isOk = true ↔
      ((vals.mapM (coerceValue spec.dtype)).isSome = true ∧
        (spec.nullable = true ∨ vals.any PolarsValue.isNull = false)) := by
  unfold validateColumn
  cases hm : vals.mapM (coerceValue spec.dtype) with
  | none => simp [Except.isOk, Except.toBool]
  | some coerced =>
    dsimp only
    rw [mapM_coerce_any_null hm]
    cases hn : spec.nullable <;> cases ha : vals.any PolarsValue.isNull <;>
      simp [Except.isOk, Except.toBool, hn, ha]

theorem validateColumn_ok_content {spec : ColumnSpec} {vals out : List PolarsValue}
    (h : validateColumn spec vals = .ok out) :
    vals.mapM (coerceValue spec.dtype) = some out := by
  unfold validateColumn at h
  cases hm : vals.mapM (coerceValue spec.dtype) with
  | none => rw [hm] at h; cases h
  | some coerced =>
    rw [hm] at h
    dsimp only at h
    by_cases hnull : (!spec.nullable && coerced.any PolarsValue.isNull) = true
    · rw [if_pos hnull] at h; cases h
    · rw [if_neg hnull] at h
      injection h with h
      subst h
      rfl

theorem selectColumns_isOk_iff (raw : Frame) (schema : List ColumnSpec) :
    (selectColumns raw schema).isOk = true ↔
      ∀ spec ∈ schema, (raw.getColumn spec.name).isSome = true := by
  induction schema with
  | nil => simp [selectColumns, Except.isOk, Except.toBool]
  | cons spec rest ih =>
    rw [selectColumns]
    cases hg : raw.getColumn spec.name with
    | none =>
      dsimp only
      simp only [Except.isOk, Except.toBool]
      constructor
      · intro h
        cases h
      · intro hall
        have h2 := hall spec (List.mem_cons_self spec rest)
        simp [hg] at h2
    | some vals =>
      dsimp only
      cases hr : selectColumns raw rest with
      | error e =>
        rw [hr] at ih
        dsimp only
        simp only [Except.isOk, Except.toBool]
        constructor
        · intro h
          cases h
        · intro hall
          have h2 : False := by
            have h3 := ih.mpr (fun s hs => hall s (List.mem_cons_of_mem spec hs))
            cases h3
          cases h2
      | ok sel =>
        rw [hr] at ih
        dsimp only
        simp only [Except.isOk, Except.toBool]
        constructor
        · intro _ s hs
          rcases List.mem_cons.mp hs with rfl | hs2
          · simp [hg]
          · exact ih.mp rfl s hs2
        · intro _
          trivial

theorem selectColumns_ok_content {raw : Frame} {schema : List ColumnSpec}
    {sel : List (String × List PolarsValue)}
    (h : selectColumns raw schema = .ok sel) :
    sel = schema.map (fun spec => (spec.name, (raw.getColumn spec.name).getD [])) := by
  induction schema generalizing sel with
  | nil =>
    rw [selectColumns] at h
    injection h with h
    subst h
    rfl
  | cons spec rest ih =>
    rw [selectColumns] at h
    cases hg : raw.getColumn spec.name with
    | none =>
      rw [hg] at h
      cases h
    | some vals =>
      rw [hg] at h
      dsimp only at h
      cases hr : selectColumns raw rest with
      | error e =>
        rw [hr] at h
        cases h
      | ok tail =>
        rw [hr] at h
        dsimp only at h
        injection h with h
        subst h
        simp [List.map_cons, ih hr, hg]

theorem checkColumnsPresent_ok {f : Frame} {schema : List ColumnSpec}
    (h : ∀ spec ∈ schema, f.columnNames.contains spec.name = true) :
    checkColumnsPresent f schema = .ok () := by
  induction schema with
  | nil => rfl
  | cons spec rest ih =>
    rw [checkColumnsPresent]
    rw [if_pos (h spec (List.mem_cons_self spec rest))]
    exact ih (fun s hs => h s (List.mem_cons_of_mem spec hs))

theorem find_self {schema : List ColumnSpec} {spec : ColumnSpec}
    (hnd : (schema.map ColumnSpec.name).Nodup) (hmem : spec ∈ schema) :
    schema.find? (fun s => s.name == spec.name) = some spec := by
  induction schema with
  | nil => cases hmem
  | cons s rest ih =>
    rw [List.map_cons, List.nodup_cons] at hnd
    rcases List.mem_cons.mp hmem with rfl | hmem2
    · simp [List.find?]
    · have hne : (s.name == spec.name) = false := by
        rw [beq_eq_false_iff_ne]
        intro he
        exact hnd.1 (he ▸ List.mem_map_of_mem ColumnSpec.name hmem2)
      simp only [List.find?, hne]
      exact ih hnd.2 hmem2

theorem validateFrameColumns_aligned_isOk (schema : List ColumnSpec)
    (sub : List ColumnSpec) (v : ColumnSpec → List PolarsValue)
    (hfind : ∀ spec ∈ sub, schema.find? (fun s => s.name == spec.name) = some spec) :
    (validateFrameColumns schema
        (sub.map (fun spec => (spec.name, v spec)))).isOk = true ↔
      ∀ spec ∈ sub, (validateColumn spec (v spec)).isOk = true := by
  induction sub with
  | nil => simp [validateFrameColumns, Except.isOk, Except.toBool]
  | cons spec rest ih =>
    rw [List.map_cons, validateFrameColumns]
    dsimp only
    rw [hfind spec (List.mem_cons_self spec rest)]
    dsimp only
    cases hvc : validateColumn spec (v spec) with
    | error e =>
      dsimp only [Except.map]
      simp only [Except.isOk, Except.toBool]
      constructor
      · intro h
        cases h
      · intro hall
        have h2 := hall spec (List.mem_cons_self spec rest)
        rw [hvc] at h2
        cases h2
    | ok out =>
      dsimp only [Except.map]
      have ih2 := ih (fun s hs => hfind s (List.mem_cons_of_mem spec hs))
      cases hrest : validateFrameColumns schema
          (rest.map (fun s => (s.name, v s))) with
      | error e =>
        rw [hrest] at ih2
        dsimp only
        simp only [Except.isOk, Except.toBool]
        constructor
        · intro h
          cases h
        · intro hall
          have h2 := ih2.mpr (fun s hs => hall s (List.mem_cons_of_mem spec hs))
          cases h2
      | ok tail =>
        rw [hrest] at ih2
        dsimp only
        simp only [Except.isOk, Except.toBool]
        constructor
        · intro _ s hs
          rcases List.mem_cons.mp hs with rfl | hs2
          · rw [hvc]
          · exact ih2.mp rfl s hs2
        · intro _
          trivial

theorem validateFrameColumns_aligned_content {schema : List ColumnSpec}
    {sub : List ColumnSpec} {v : ColumnSpec → List PolarsValue}
    {out : List (String × List PolarsValue)}
    (hfind : ∀ spec ∈ sub, schema.find? (fun s => s.name == spec.name) = some spec)
    (h : validateFrameColumns schema
        (sub.map (fun spec => (spec.name, v spec))) = .ok out) :
    out = sub.map (fun spec =>
      (spec.name, ((v spec).mapM (coerceValue spec.dtype)).getD [])) := by
  induction sub generalizing out with
  | nil =>
    rw [List.map_nil, validateFrameColumns] at h
    injection h with h
    subst h
    rfl
  | cons spec rest ih =>
    rw [List.map_cons, validateFrameColumns] at h
    dsimp only at h
    rw [hfind spec (List.mem_cons_self spec rest)] at h
    dsimp only at h
    cases hvc : validateColumn spec (v spec) with
    | error e =>
      rw [hvc] at h
      dsimp only [Except.map] at h
      cases h
    | ok w =>
      rw [hvc] at h
      dsimp only [Except.map] at h
      cases hrest : validateFrameColumns schema
          (rest.map (fun s => (s.name, v s))) with
      | error e =>
        rw [hrest] at h
        cases h
      | ok tail =>
        rw [hrest] at h
        dsimp only at h
        injection h with h
        subst h
        have htail := ih (fun s hs => hfind s (List.mem_cons_of_mem spec hs)) hrest
        have hw := validateColumn_ok_content hvc
        rw [List.map_cons, ← htail, hw]
        rfl

theorem schemaOK_present {schema : List ColumnSpec} {raw : Frame}
    (h : schemaOK schema raw = true) :
    ∀ spec ∈ schema, (raw.getColumn spec.name).isSome = true := by
  intro spec hs
  have hb := List.all_eq_true.mp h spec hs
  cases hg : raw.getColumn spec.name with
  | none =>
    rw [hg] at hb
    dsimp only at hb
    cases hb
  | some vals => rfl

theorem schemaOK_iff_columns {schema : List ColumnSpec} {raw : Frame}
    (hpres : ∀ spec ∈ schema, (raw.getColumn spec.name).isSome = true) :
    schemaOK schema raw = true ↔
      ∀ spec ∈ schema,
        (validateColumn spec ((raw.getColumn spec.name).getD [])).isOk = true := by
  unfold schemaOK
  rw [List.all_eq_true]
  constructor
  · intro h spec hs
    have hb := h spec hs
    obtain ⟨vals, hg⟩ := Option.isSome_iff_exists.mp (hpres spec hs)
    rw [hg] at hb
    dsimp only at hb
    rw [validateColumn_isOk_iff, hg]
    dsimp only [Option.getD]
    simp only [Bool.and_eq_true, Bool.or_eq_true, Bool.not_eq_true'] at hb
    refine ⟨hb.1, ?_⟩
    rcases hb.2 with h1 | h2
    · exact Or.inl h1
    · exact Or.inr h2
  · intro h spec hs
    have hb := h spec hs
    obtain ⟨vals, hg⟩ := Option.isSome_iff_exists.mp (hpres spec hs)
    rw [hg] at hb ⊢
    dsimp only
    rw [validateColumn_isOk_iff] at hb
    dsimp only [Option.getD] at hb
    simp only [Bool.and_eq_true, Bool.or_eq_true, Bool.not_eq_true']
    refine ⟨hb.1, ?_⟩
    rcases hb.2 with h1 | h2
    · exact Or.inl h1
    · exact Or.inr h2

/-- A two-column schema contract: a nullable string column and a
non-nullable boolean column. -/
def schema1 : List ColumnSpec :=
  [⟨"NOARR", PolarsType.utf8, true⟩, ⟨"VELO", PolarsType.boolean, false⟩]

/-- A raw frame satisfying `schema1`, with an undeclared extra column. -/
def rawGood : Frame :=
  Frame.mk [("NOARR", [PolarsValue.str "a", PolarsValue.null]),
    ("VELO", [PolarsValue.bool true, PolarsValue.bool false]),
    ("JUNK", [PolarsValue.int 1])]

/-- A raw frame missing the declared VELO column. -/
def rawMissingVelo : Frame := Frame.mk [("NOARR", [PolarsValue.str "a"])]

/-- The validated frame expected from `rawGood` under `schema1`. -/
def validatedGood : Frame :=
  Frame.mk [("NOARR", [PolarsValue.str "a", PolarsValue.null]),
    ("VELO", [PolarsValue.bool true, PolarsValue.bool false])]

/-- C4: validate_raw_data fails whenever a declared column is absent from
the raw frame (whatever the preprocessing step); with the default identity
preprocessing it succeeds exactly when every declared column is present,
coercible to its declared type and free of nulls where non-nullable
(schemaOK); on success the validated frame carries exactly the declared
columns with their coerced cells, undeclared columns dropped; and a
validation error aborts the whole integrate run with that error — no
further pipeline step runs. -/
theorem validate_schema_contract :
    (∀ (schema : List ColumnSpec) (preprocess : Frame → Frame) (raw : Frame)
        (spec : ColumnSpec), spec ∈ schema → raw.getColumn spec.name = none →
      (validate_raw_data schema preprocess raw).isOk = false) ∧
    (∀ (schema : List ColumnSpec) (raw : Frame),
      (schema.map ColumnSpec.name).Nodup →
      ((validate_raw_data schema id raw).isOk = true ↔
        schemaOK schema raw = true)) ∧
    (∀ (schema : List ColumnSpec) (raw : Frame) (f : Frame),
      (schema.map ColumnSpec.name).Nodup →
      validate_raw_data schema id raw = .ok f →
      f.columnNames = schema.map ColumnSpec.name ∧
      f.columns = schema.map (fun spec =>
        (spec.name,
          (((raw.getColumn spec.name).getD []).mapM
            (coerceValue spec.dtype)).getD []))) ∧
    (∀ (schema : List ColumnSpec) (preprocess : Frame → Frame)
        (computeCleanData : Frame → List RegulationMeasure)
        (fetchIds : Except Unit (List String))
        (submit : PostApiRegulationsAddBody → Nat) (raw : Frame) (e : String),
      validate_raw_data schema preprocess raw = .error e →
      integrate_regulations schema preprocess computeCleanData fetchIds submit
        raw = .error (RunError.schema e)) := by
  refine ⟨?_, ?_, ?_, ?_⟩
  · intro schema preprocess raw spec hmem hnone
    unfold validate_raw_data
    cases hs : selectColumns raw schema with
    | error e => rfl
    | ok sel =>
      have h2 := (selectColumns_isOk_iff raw schema).mp (by rw [hs]; rfl) spec hmem
      rw [hnone] at h2
      cases h2
  · intro schema raw hnd
    unfold validate_raw_data
    cases hs : selectColumns raw schema with
    | error e =>
      dsimp only
      simp only [Except.isOk, Except.toBool]
      constructor
      · intro h
        cases h
      · intro hok
        have h2 : (selectColumns raw schema).isOk = true :=
          (selectColumns_isOk_iff raw schema).mpr (schemaOK_present hok)
        rw [hs] at h2
        cases h2
    | ok sel =>
      have hpres : ∀ spec ∈ schema, (raw.getColumn spec.name).isSome = true :=
        (selectColumns_isOk_iff raw schema).mp (by rw [hs]; rfl)
      have hsel := selectColumns_ok_content hs
      subst hsel
      dsimp only [id_eq]
      have hcn : (Frame.mk (schema.map
          (fun spec => (spec.name, (raw.getColumn spec.name).getD [])))).columnNames
          = schema.map ColumnSpec.name := by
        simp [Frame.columnNames]
      have hcp : checkColumnsPresent (Frame.mk (schema.map
          (fun spec => (spec.name, (raw.getColumn spec.name).getD []))))
          schema = .ok () := by
        apply checkColumnsPresent_ok
        intro spec hs2
        rw [hcn]
        simp only [List.elem_eq_mem, decide_eq_true_eq, List.mem_map]
        exact ⟨spec, hs2, rfl⟩
      rw [hcp]
      dsimp only
      have hfind : ∀ spec ∈ schema,
          schema.find? (fun s => s.name == spec.name) = some spec :=
        fun spec hs2 => find_self hnd hs2
      cases hv : validateFrameColumns schema (schema.map
          (fun spec => (spec.name, (raw.getColumn spec.name).getD []))) with
      | error e =>
        dsimp only
        simp only [Except.isOk, Except.toBool]
        constructor
        · intro h
          cases h
        · intro hok
          have h2 := (validateFrameColumns_aligned_isOk schema schema
              (fun spec => (raw.getColumn spec.name).getD []) hfind).mpr
            ((schemaOK_iff_columns hpres).mp hok)
          rw [hv] at h2
          cases h2
      | ok cols =>
        dsimp only
        simp only [Except.isOk, Except.toBool]
        constructor
        · intro _
          exact (schemaOK_iff_columns hpres).mpr
            ((validateFrameColumns_aligned_isOk schema schema
                (fun spec => (raw.getColumn spec.name).getD []) hfind).mp
              (by rw [hv]; rfl))
        · intro _
          trivial
  · intro schema raw f hnd hval
    unfold validate_raw_data at hval
    cases hs : selectColumns raw schema with
    | error e =>
      rw [hs] at hval
      cases hval
    | ok sel =>
      rw [hs] at hval
      dsimp only at hval
      have hsel := selectColumns_ok_content hs
      subst hsel
      dsimp only [id_eq] at hval
      have hcn : (Frame.mk (schema.map
          (fun spec => (spec.name, (raw.getColumn spec.name).getD [])))).columnNames
          = schema.map ColumnSpec.name := by
        simp [Frame.columnNames]
      have hcp : checkColumnsPresent (Frame.mk (schema.map
          (fun spec => (spec.name, (raw.getColumn spec.name).getD []))))
          schema = .ok () := by
        apply checkColumnsPresent_ok
        intro spec hs2
        rw [hcn]
        simp only [List.elem_eq_mem, decide_eq_true_eq, List.mem_map]
        exact ⟨spec, hs2, rfl⟩
      rw [hcp] at hval
      dsimp only at hval
      have hfind : ∀ spec ∈ schema,
          schema.find? (fun s => s.name == spec.name) = some spec :=
        fun spec hs2 => find_self hnd hs2
      cases hv : validateFrameColumns schema (schema.map
          (fun spec => (spec.name, (raw.getColumn spec.name).getD []))) with
      | error e =>
        rw [hv] at hval
        cases hval
      | ok cols =>
        rw [hv] at hval
        dsimp only at hval
        injection hval with hval
        subst hval
        have hcols := validateFrameColumns_aligned_content hfind hv
        subst hcols
        refine ⟨?_, rfl⟩
        simp only [Frame.columnNames, List.map_map]
        rfl
  · intro schema preprocess computeCleanData fetchIds submit raw e hval
    unfold integrate_regulations
    rw [hval]

/-- Witness for C4: the four parts applied at the two-column contract — a
frame missing the non-nullable column fails, a conforming frame satisfies
the success characterization and yields exactly the declared coerced
columns, and the missing-column error aborts the integrate run. -/
theorem validate_schema_contract_witness :
    (validate_raw_data schema1 id rawMissingVelo).isOk = false ∧
    ((validate_raw_data schema1 id rawGood).isOk = true ↔
      schemaOK schema1 rawGood = true) ∧
    (validatedGood.columnNames = schema1.map ColumnSpec.name ∧
      validatedGood.columns = schema1.map (fun spec =>
        (spec.name,
          (((rawGood.getColumn spec.name).getD []).mapM
            (coerceValue spec.dtype)).getD []))) ∧
    integrate_regulations schema1 id (fun _ => []) (.ok []) (fun _ => 201)
      rawMissingVelo = .error (RunError.schema "missing required column VELO") :=
  ⟨validate_schema_contract.1 schema1 id rawMissingVelo
      ⟨"VELO", PolarsType.boolean, false⟩ (by decide) rfl,
    validate_schema_contract.2.1 schema1 rawGood (by decide),
    validate_schema_contract.2.2.1 schema1 rawGood validatedGood (by decide)
      (by rfl),
    validate_schema_contract.2.2.2 schema1 id (fun _ => []) (.ok [])
      (fun _ => 201) rawMissingVelo "missing required column VELO" (by rfl)⟩

end Dialog
